import Mathlib

/-!
Verification of the battlecode replay client's playback controller.

The definitions below are a shallow embedding of the client's main update
loop (the per-frame `loop` closure inside `runMatch`), of the four playback
intents installed on the controls (`onTogglePause`, `onToggleForward`,
`onToggleRewind`, `onSeek`), of the interpolation gate and lerp computation
in the render section of the loop, and of `config.defaults`. The two
client variants in the source contain textually identical copies of the
loop and of the intent closures, so a single embedding covers both.
JavaScript numbers are modelled as exact rationals, engine turns as
integers, and the engine itself (`match.current.turn`, `match.seekTo`) is
an external observation supplied to each tick.
-/

/-- State of the playback controller: the mutable locals of `runMatch`
(`goalUPS`, `rewinding`, `interpGameTime`, `lastTime`, `externalSeek`). -/
structure ControllerState where
  goalUPS : ℚ
  rewinding : Bool
  interpGameTime : ℚ
  lastTime : Option ℚ
  externalSeek : Bool
deriving DecidableEq, Repr

/-- Intent `onTogglePause`: `goalUPS = goalUPS === 0 ? 10 : 0; rewinding = false`. -/
def onTogglePause (s : ControllerState) : ControllerState :=
  { s with goalUPS := if s.goalUPS = 0 then 10 else 0, rewinding := false }

/-- Intent `onToggleForward`: `goalUPS = goalUPS === 300 ? 10 : 300; rewinding = false`. -/
def onToggleForward (s : ControllerState) : ControllerState :=
  { s with goalUPS := if s.goalUPS = 300 then 10 else 300, rewinding := false }

/-- Intent `onToggleRewind`: `goalUPS = goalUPS === -100 ? 10 : -100; rewinding = !rewinding`. -/
def onToggleRewind (s : ControllerState) : ControllerState :=
  { s with goalUPS := if s.goalUPS = -100 then 10 else -100, rewinding := !s.rewinding }

/-- Intent `onSeek turn`: `externalSeek = true; match.seek(turn); interpGameTime = turn`.
The second component is the turn passed to the engine's `seek`. -/
def onSeek (s : ControllerState) (turn : ℤ) : ControllerState × ℤ :=
  ({ s with externalSeek := true, interpGameTime := (turn : ℚ) }, turn)

/-- Truncation toward zero, the first step of the ECMAScript ToInt32 conversion
applied by the bitwise-or in `match.seek(interpGameTime | 0)`. -/
def jsTrunc (q : ℚ) : ℤ := if 0 ≤ q then ⌊q⌋ else ⌈q⌉

/-- ECMAScript `x | 0`: truncate toward zero, then wrap into the signed 32-bit range. -/
def jsToInt32 (q : ℚ) : ℤ :=
  let n := jsTrunc q % 2 ^ 32
  if n < 2 ^ 31 then n else n - 2 ^ 32

/-- One controller step of the main update `loop`: the branch chain at the top
of the loop body, which may clear the seek flag, stop a rewind, or advance
`interpGameTime` while issuing a `match.seek` request, and which always records
`lastTime = curTime`. `engineTurn` and `seekTo` are the engine observations
`match.current.turn` and `match.seekTo`. The second component is the seek
target requested this tick, if any. -/
def tick (s : ControllerState) (engineTurn seekTo : ℤ) (curTime : ℚ) :
    ControllerState × Option ℤ :=
  match s.lastTime with
  | none => ({ s with lastTime := some curTime }, none)
  | some prev =>
      if s.externalSeek = true then
        if engineTurn = seekTo then
          ({ s with externalSeek := false, lastTime := some curTime }, none)
        else
          ({ s with lastTime := some curTime }, none)
      else if s.rewinding = true ∧ engineTurn ≤ 10 then
        ({ onTogglePause (onToggleRewind s) with lastTime := some curTime }, none)
      else if |s.interpGameTime - (engineTurn : ℚ)| < 10 then
        ({ s with
            interpGameTime := s.interpGameTime + s.goalUPS * (curTime - prev) / 1000,
            lastTime := some curTime },
          some (jsToInt32 (s.interpGameTime + s.goalUPS * (curTime - prev) / 1000)))
      else
        ({ s with lastTime := some curTime }, none)

/-- Interpolation gate from the render section of the loop:
`conf.interpolate && match.current.turn + 1 < match.deltas.length
&& goalUPS < rendersPerSecond.tps`. -/
def shouldInterpolate (interpEnabled : Bool) (goalUPS : ℚ) (currentTurn maxLoadedTurn : ℤ)
    (renderRate : ℚ) : Bool :=
  interpEnabled && decide (currentTurn + 1 < maxLoadedTurn) && decide (goalUPS < renderRate)

/-- Kind of frame handed to the renderer on a tick: exact, or interpolated
with a lerp fraction. -/
inductive FrameRequest where
  | exactFrame
  | interpFrame (lerp : ℚ)
deriving DecidableEq, Repr

/-- Render decision of the loop: an interpolated frame with
`lerp = Math.min(interpGameTime - match.current.turn, 1)` when the gate holds,
an exact frame otherwise. -/
def renderDecision (interpEnabled : Bool) (goalUPS : ℚ) (currentTurn maxLoadedTurn : ℤ)
    (renderRate interpGameTime : ℚ) : FrameRequest :=
  if shouldInterpolate interpEnabled goalUPS currentTurn maxLoadedTurn renderRate then
    FrameRequest.interpFrame (min (interpGameTime - (currentTurn : ℚ)) 1)
  else
    FrameRequest.exactFrame

/-- Controller state together with the engine-side target of the last accepted
`seek` request (the value the `match.seekTo` accessor reports back). -/
structure SysState where
  ctrl : ControllerState
  seekTo : ℤ
deriving DecidableEq, Repr

/-- One tick of the combined system: the controller steps, and any seek request
it issues becomes the engine's new seek target. -/
def sysTick (st : SysState) (engineTurn : ℤ) (curTime : ℚ) : SysState :=
  { ctrl := (tick st.ctrl engineTurn st.seekTo curTime).1,
    seekTo := ((tick st.ctrl engineTurn st.seekTo curTime).2).getD st.seekTo }

/-- The `onSeek` intent on the combined system. -/
def sysSeek (st : SysState) (turn : ℤ) : SysState :=
  { ctrl := (onSeek st.ctrl turn).1, seekTo := (onSeek st.ctrl turn).2 }

/-- Run a sequence of loop ticks, each observing an engine turn and a
wall-clock timestamp. -/
def runTicks (st : SysState) (obs : List (ℤ × ℚ)) : SysState :=
  obs.foldl (fun a o => sysTick a o.1 o.2) st

/-- Initial controller state set up by `runMatch`: `goalUPS = 10`,
`rewinding = false`, `interpGameTime = 0`, `lastTime = null`,
`externalSeek = false`. -/
def initState : ControllerState :=
  { goalUPS := 10, rewinding := false, interpGameTime := 0, lastTime := none,
    externalSeek := false }

/-- Controller states reachable from the initial `runMatch` state via the four
intents and loop ticks, with arbitrary engine observations. -/
inductive Reachable : ControllerState → Prop where
  | init : Reachable initState
  | pause {s} (h : Reachable s) : Reachable (onTogglePause s)
  | forward {s} (h : Reachable s) : Reachable (onToggleForward s)
  | rewind {s} (h : Reachable s) : Reachable (onToggleRewind s)
  | seek {s} (turn : ℤ) (h : Reachable s) : Reachable (onSeek s turn).1
  | step {s} (engineTurn seekTo : ℤ) (curTime : ℚ) (h : Reachable s) :
      Reachable (tick s engineTurn seekTo curTime).1

/-- Fields of the optional `supplied` object handed to `config.defaults`;
`none` models a missing (or null/undefined) field. -/
structure SuppliedConfig where
  gameVersion : Option String := none
  fullscreen : Option Bool := none
  width : Option ℚ := none
  height : Option ℚ := none
  defaultTPS : Option ℚ := none
  websocketURL : Option String := none
  pollEvery : Option ℚ := none
  interpolate : Option Bool := none
  healthBars : Option Bool := none
  circleBots : Option Bool := none
  indicators : Option Bool := none
  inGameMode : Option Bool := none
  inHelpMode : Option Bool := none
deriving DecidableEq, Repr

/-- JavaScript `v || d` for a numeric field: a missing field and `0` are falsy. -/
def jsOrNum (v : Option ℚ) (d : ℚ) : ℚ :=
  match v with
  | none => d
  | some x => if x = 0 then d else x

/-- JavaScript `v || d` for a string field: a missing field and `""` are falsy. -/
def jsOrStr (v : Option String) (d : String) : String :=
  match v with
  | none => d
  | some x => if x = "" then d else x

/-- JavaScript `v || d` for a boolean field. -/
def jsOrBool (v : Option Bool) (d : Bool) : Bool :=
  match v with
  | none => d
  | some b => if b then b else d

/-- JavaScript `v || null` for a nullable string field. -/
def jsOrNull (v : Option String) : Option String :=
  match v with
  | none => none
  | some x => if x = "" then none else some x

/-- The full-variant `Config` produced by `config.defaults`. -/
structure Config where
  gameVersion : String
  fullscreen : Bool
  width : ℚ
  height : ℚ
  defaultTPS : ℚ
  websocketURL : Option String
  pollEvery : ℚ
  interpolate : Bool
  healthBars : Bool
  circleBots : Bool
  indicators : Bool
  inGameMode : Bool
  inHelpMode : Bool
deriving DecidableEq, Repr

/-- The full variant of `config.defaults`: each option field is ||-coalesced
with its built-in default, and the view-mode flags (`interpolate`,
`healthBars`, `circleBots`, `indicators`, `inGameMode`, `inHelpMode`) are
assigned fixed literals regardless of the supplied object. -/
def defaults (supplied : SuppliedConfig) : Config :=
  { gameVersion := jsOrStr supplied.gameVersion "ANY"
    fullscreen := jsOrBool supplied.fullscreen false
    width := jsOrNum supplied.width 600
    height := jsOrNum supplied.height 600
    defaultTPS := jsOrNum supplied.defaultTPS 20
    websocketURL := jsOrNull supplied.websocketURL
    pollEvery := jsOrNum supplied.pollEvery 500
    interpolate := true
    healthBars := true
    circleBots := false
    indicators := true
    inGameMode := true
    inHelpMode := false }

/-- The base-variant `Config` of `src/config.ts`. -/
structure ConfigBase where
  gameVersion : String
  fullscreen : Bool
  width : ℚ
  height : ℚ
  defaultTPS : ℚ
deriving DecidableEq, Repr

/-- The base variant of `config.defaults` in `src/config.ts`. -/
def defaultsBase (supplied : SuppliedConfig) : ConfigBase :=
  { gameVersion := jsOrStr supplied.gameVersion "ANY"
    fullscreen := jsOrBool supplied.fullscreen false
    width := jsOrNum supplied.width 600
    height := jsOrNum supplied.height 600
    defaultTPS := jsOrNum supplied.defaultTPS 20 }

/-- Tick equation: the very first tick only records the timestamp. -/
theorem tick_first (s : ControllerState) (engineTurn seekTo : ℤ) (curTime : ℚ)
    (h : s.lastTime = none) :
    tick s engineTurn seekTo curTime = ({ s with lastTime := some curTime }, none) := by
  rcases s with ⟨g, rwd, it, lt, es⟩
  dsimp only at h
  subst h
  simp [tick]

/-- Tick equation: a tick during a seek whose target the engine has reached
clears the seek flag and changes nothing else. -/
theorem tick_seek_clear (s : ControllerState) (engineTurn seekTo : ℤ) (prev curTime : ℚ)
    (hprev : s.lastTime = some prev) (hseek : s.externalSeek = true)
    (heq : engineTurn = seekTo) :
    tick s engineTurn seekTo curTime =
      ({ s with externalSeek := false, lastTime := some curTime }, none) := by
  rcases s with ⟨g, rwd, it, lt, es⟩
  dsimp only at hprev hseek
  subst hprev; subst hseek
  simp [tick, heq]

/-- Tick equation: a tick during a seek whose target the engine has not yet
reached changes nothing but the recorded timestamp. -/
theorem tick_seek_wait (s : ControllerState) (engineTurn seekTo : ℤ) (prev curTime : ℚ)
    (hprev : s.lastTime = some prev) (hseek : s.externalSeek = true)
    (hne : engineTurn ≠ seekTo) :
    tick s engineTurn seekTo curTime = ({ s with lastTime := some curTime }, none) := by
  rcases s with ⟨g, rwd, it, lt, es⟩
  dsimp only at hprev hseek
  subst hprev; subst hseek
  simp [tick, hne]

/-- Tick equation: the rewind-stop branch applies the rewind toggle and then
the pause toggle. -/
theorem tick_rewind_stop (s : ControllerState) (engineTurn seekTo : ℤ) (prev curTime : ℚ)
    (hprev : s.lastTime = some prev) (hseek : s.externalSeek = false)
    (hrew : s.rewinding = true) (hturn : engineTurn ≤ 10) :
    tick s engineTurn seekTo curTime =
      ({ onTogglePause (onToggleRewind s) with lastTime := some curTime }, none) := by
  rcases s with ⟨g, rwd, it, lt, es⟩
  dsimp only at hprev hseek hrew
  subst hprev; subst hseek; subst hrew
  simp [tick, hturn]

/-- Tick equation: the advance branch moves `interpGameTime` by
`goalUPS * (curTime - prev) / 1000` and requests a seek to the `| 0`
conversion of the new value. -/
theorem tick_advance_eq (s : ControllerState) (engineTurn seekTo : ℤ) (prev curTime : ℚ)
    (hprev : s.lastTime = some prev) (hseek : s.externalSeek = false)
    (hrew : ¬(s.rewinding = true ∧ engineTurn ≤ 10))
    (hdrift : |s.interpGameTime - (engineTurn : ℚ)| < 10) :
    tick s engineTurn seekTo curTime =
      ({ s with
          interpGameTime := s.interpGameTime + s.goalUPS * (curTime - prev) / 1000,
          lastTime := some curTime },
        some (jsToInt32 (s.interpGameTime + s.goalUPS * (curTime - prev) / 1000))) := by
  rcases s with ⟨g, rwd, it, lt, es⟩
  dsimp only at hprev hseek hrew hdrift
  subst hprev; subst hseek
  simp [tick, hrew, hdrift]

/-- Field form of the advance equation: the new `interpGameTime`. -/
theorem tick_advance_interp (s : ControllerState) (engineTurn seekTo : ℤ) (prev curTime : ℚ)
    (hprev : s.lastTime = some prev) (hseek : s.externalSeek = false)
    (hrew : ¬(s.rewinding = true ∧ engineTurn ≤ 10))
    (hdrift : |s.interpGameTime - (engineTurn : ℚ)| < 10) :
    (tick s engineTurn seekTo curTime).1.interpGameTime =
      s.interpGameTime + s.goalUPS * (curTime - prev) / 1000 := by
  rw [tick_advance_eq s engineTurn seekTo prev curTime hprev hseek hrew hdrift]

/-- The ToInt32 conversion agrees with the floor on nonnegative values below
2 to the 31st power. -/
theorem jsToInt32_eq_floor (q : ℚ) (h0 : 0 ≤ q) (h31 : q < 2 ^ 31) :
    jsToInt32 q = ⌊q⌋ := by
  have hfl0 : (0 : ℤ) ≤ ⌊q⌋ := Int.le_floor.mpr (by exact_mod_cast h0)
  have hfl31 : ⌊q⌋ < 2 ^ 31 := Int.floor_lt.mpr (by exact_mod_cast h31)
  have htr : jsTrunc q = ⌊q⌋ := if_pos h0
  have hmod : ⌊q⌋ % 2 ^ 32 = ⌊q⌋ :=
    Int.emod_eq_of_lt hfl0 (lt_trans hfl31 (by norm_num))
  simp only [jsToInt32, htr, hmod, if_pos hfl31]

/-- While a seek is in flight and the engine has not reached the target, ticks
change nothing but the recorded timestamp, and the seek target is preserved. -/
theorem runTicks_freeze (T : ℤ) (obs : List (ℤ × ℚ)) :
    ∀ st : SysState, st.ctrl.externalSeek = true → st.seekTo = T →
    (∃ l, st.ctrl.lastTime = some l) →
    (∀ o ∈ obs, o.1 ≠ T) →
    (runTicks st obs).ctrl.externalSeek = true ∧
    (runTicks st obs).seekTo = T ∧
    (runTicks st obs).ctrl.interpGameTime = st.ctrl.interpGameTime ∧
    (runTicks st obs).ctrl.goalUPS = st.ctrl.goalUPS ∧
    (runTicks st obs).ctrl.rewinding = st.ctrl.rewinding ∧
    ∃ l, (runTicks st obs).ctrl.lastTime = some l := by
  induction obs with
  | nil =>
      intro st hseek hto hlast hobs
      exact ⟨hseek, hto, rfl, rfl, rfl, hlast⟩
  | cons o rest ih =>
      intro st hseek hto hlast hobs
      obtain ⟨l, hl⟩ := hlast
      have hne : o.1 ≠ st.seekTo := by
        rw [hto]; exact hobs o (List.mem_cons_self o rest)
      have hstep : sysTick st o.1 o.2 =
          ⟨{ st.ctrl with lastTime := some o.2 }, st.seekTo⟩ := by
        simp [sysTick, tick_seek_wait st.ctrl o.1 st.seekTo l o.2 hl hseek hne]
      have hrec := ih ⟨{ st.ctrl with lastTime := some o.2 }, st.seekTo⟩
        (by simpa using hseek) (by simpa using hto) ⟨o.2, rfl⟩
        (fun o2 ho2 => hobs o2 (List.mem_cons_of_mem o ho2))
      simp only [runTicks, List.foldl_cons] at hrec ⊢
      rw [hstep]
      simpa using hrec

/-- Claim C1 counterexample: with rewinding true at engine turn 5 (no seek in
flight, a previous tick recorded), one tick leaves `goalUPS = 0`, not the
default forward rate 10: the loop invokes the rewind toggle and then the
pause toggle, and the pause toggle always ends at 0 here. -/
theorem C1_counterexample :
    ((⟨-100, true, 5, some 0, false⟩ : ControllerState)).rewinding = true ∧
    ((⟨-100, true, 5, some 0, false⟩ : ControllerState)).externalSeek = false ∧
    (5 : ℤ) ≤ 10 ∧
    (tick ⟨-100, true, 5, some 0, false⟩ 5 0 1000).1.goalUPS = 0 ∧
    (tick ⟨-100, true, 5, some 0, false⟩ 5 0 1000).1.goalUPS ≠ 10 := by
  refine ⟨rfl, rfl, by norm_num, ?_, ?_⟩ <;>
    norm_num [tick, onTogglePause, onToggleRewind]

/-- Claim C1 (amended): in every controller state with rewinding true, the
engine turn at most 10, no seek in flight and a previous tick recorded, one
tick leaves `goalUPS = 0` (rewind stopped and playback paused) and
`rewinding = false`. -/
theorem C1_rewind_autostop (s : ControllerState) (engineTurn seekTo : ℤ)
    (prev curTime : ℚ) (hprev : s.lastTime = some prev)
    (hseek : s.externalSeek = false) (hrew : s.rewinding = true)
    (hturn : engineTurn ≤ 10) :
    (tick s engineTurn seekTo curTime).1.goalUPS = 0 ∧
    (tick s engineTurn seekTo curTime).1.rewinding = false := by
  rw [tick_rewind_stop s engineTurn seekTo prev curTime hprev hseek hrew hturn]
  constructor
  · simp only [onTogglePause, onToggleRewind]
    rcases eq_or_ne s.goalUPS (-100) with h | h <;> norm_num [h]
  · simp [onTogglePause]

/-- Witness for C1: the amended theorem applied at the counterexample state. -/
theorem C1_witness :
    (tick ⟨-100, true, 5, some 0, false⟩ 5 0 1000).1.goalUPS = 0 ∧
    (tick ⟨-100, true, 5, some 0, false⟩ 5 0 1000).1.rewinding = false :=
  C1_rewind_autostop ⟨-100, true, 5, some 0, false⟩ 5 0 0 1000 rfl rfl rfl (by norm_num)

/-- Claim C2 counterexample: with no seek in flight, a previous tick recorded
and drift below 10, a tick taken while rewinding at engine turn 5 does not
advance `interpGameTime` by `goalUPS * dt / 1000`: the rewind-stop branch
fires first and leaves `interpGameTime` unchanged. -/
theorem C2_counterexample :
    ((⟨-100, true, 5, some 0, false⟩ : ControllerState)).externalSeek = false ∧
    |((⟨-100, true, 5, some 0, false⟩ : ControllerState)).interpGameTime - ((5 : ℤ) : ℚ)| < 10 ∧
    (tick ⟨-100, true, 5, some 0, false⟩ 5 0 1000).1.interpGameTime = 5 ∧
    (5 : ℚ) ≠ 5 + (-100) * (1000 - 0) / 1000 := by
  refine ⟨rfl, by norm_num, ?_, by norm_num⟩
  norm_num [tick, onTogglePause, onToggleRewind]

/-- Claim C2 (amended): for every goal speed and elapsed wall-clock time
between two consecutive ticks, if no seek is in flight, the rewind-stop
condition does not hold (not rewinding with engine turn at most 10), and the
drift is below 10, then one tick advances `interpGameTime` by exactly
`goalUPS * (curTime - prev) / 1000`. -/
theorem C2_tick_advancement (s : ControllerState) (engineTurn seekTo : ℤ)
    (prev curTime : ℚ) (hprev : s.lastTime = some prev)
    (hseek : s.externalSeek = false)
    (hrew : ¬(s.rewinding = true ∧ engineTurn ≤ 10))
    (hdrift : |s.interpGameTime - (engineTurn : ℚ)| < 10) :
    (tick s engineTurn seekTo curTime).1.interpGameTime =
      s.interpGameTime + s.goalUPS * (curTime - prev) / 1000 := by
  rw [tick_advance_eq s engineTurn seekTo prev curTime hprev hseek hrew hdrift]

/-- Witness for C2: one tick from the default state at speed 10 after one
second of wall-clock time advances `interpGameTime` to 10. -/
theorem C2_witness :
    (tick ⟨10, false, 0, some 0, false⟩ 0 0 1000).1.interpGameTime =
      0 + 10 * (1000 - 0) / 1000 :=
  C2_tick_advancement ⟨10, false, 0, some 0, false⟩ 0 0 0 1000 rfl rfl
    (by norm_num) (by norm_num)

/-- Claim C3: after the seek intent fires with target `T`, every tick that
observes an engine turn other than `T` leaves the seek in flight with
`interpGameTime` frozen at `T` and the engine seek target still `T`; the
first tick observing engine turn `T` clears the flag with `interpGameTime`
still `T`; and the tick after that resumes normal advancement. -/
theorem C3_seek_freeze_completion (s0 : SysState) (T : ℤ) (obs : List (ℤ × ℚ))
    (l0 : ℚ) (hlast : s0.ctrl.lastTime = some l0)
    (hobs : ∀ o ∈ obs, o.1 ≠ T) :
    ((runTicks (sysSeek s0 T) obs).ctrl.externalSeek = true ∧
     (runTicks (sysSeek s0 T) obs).ctrl.interpGameTime = (T : ℚ) ∧
     (runTicks (sysSeek s0 T) obs).seekTo = T) ∧
    (∀ t : ℚ,
      (sysTick (runTicks (sysSeek s0 T) obs) T t).ctrl.externalSeek = false ∧
      (sysTick (runTicks (sysSeek s0 T) obs) T t).ctrl.interpGameTime = (T : ℚ)) ∧
    (∀ (t t2 : ℚ) (e2 : ℤ),
      ¬(s0.ctrl.rewinding = true ∧ e2 ≤ 10) →
      |(T : ℚ) - (e2 : ℚ)| < 10 →
      (sysTick (sysTick (runTicks (sysSeek s0 T) obs) T t) e2 t2).ctrl.interpGameTime =
        (T : ℚ) + s0.ctrl.goalUPS * (t2 - t) / 1000) := by
  have hfree := runTicks_freeze T obs (sysSeek s0 T)
    (by simp [sysSeek, onSeek]) (by simp [sysSeek, onSeek])
    ⟨l0, by simpa [sysSeek, onSeek] using hlast⟩ hobs
  obtain ⟨hes, hto, hit, hg, hrwd, l, hl⟩ := hfree
  have hit2 : (runTicks (sysSeek s0 T) obs).ctrl.interpGameTime = (T : ℚ) := by
    rw [hit]; simp [sysSeek, onSeek]
  have hg2 : (runTicks (sysSeek s0 T) obs).ctrl.goalUPS = s0.ctrl.goalUPS := by
    rw [hg]; simp [sysSeek, onSeek]
  have hrwd2 : (runTicks (sysSeek s0 T) obs).ctrl.rewinding = s0.ctrl.rewinding := by
    rw [hrwd]; simp [sysSeek, onSeek]
  have hclear : ∀ t : ℚ, sysTick (runTicks (sysSeek s0 T) obs) T t =
      ⟨{ (runTicks (sysSeek s0 T) obs).ctrl with
          externalSeek := false, lastTime := some t },
        (runTicks (sysSeek s0 T) obs).seekTo⟩ := by
    intro t
    have hcl := tick_seek_clear (runTicks (sysSeek s0 T) obs).ctrl T
      (runTicks (sysSeek s0 T) obs).seekTo l t hl hes (by rw [hto])
    simp [sysTick, hcl]
  refine ⟨⟨hes, hit2, hto⟩, ?_, ?_⟩
  · intro t
    rw [hclear t]
    exact ⟨rfl, hit2⟩
  · intro t t2 e2 hr hd
    rw [hclear t]
    have hadv := tick_advance_interp
      { (runTicks (sysSeek s0 T) obs).ctrl with externalSeek := false, lastTime := some t }
      e2 (runTicks (sysSeek s0 T) obs).seekTo t t2 rfl rfl
      (by simpa [hrwd2] using hr) (by simpa [hit2] using hd)
    simp only [sysTick]
    rw [hadv]
    simp [hit2, hg2]

/-- Witness for C3: a concrete seek to turn 3 frozen through two ticks at
turns 1 and 2 completes on the tick observing turn 3. -/
theorem C3_witness :
    (sysTick (runTicks (sysSeek ⟨⟨10, false, 0, some 0, false⟩, 0⟩ 3)
        [(1, 16), (2, 32)]) 3 48).ctrl.externalSeek = false :=
  ((C3_seek_freeze_completion ⟨⟨10, false, 0, some 0, false⟩, 0⟩ 3 [(1, 16), (2, 32)] 0 rfl
      (by decide)).2.1 48).1

/-- Claim C4: the interpolation gate is false whenever no next delta is loaded
(`currentTurn + 1` at least `maxLoadedTurn`), false whenever the goal speed is
at least the measured render rate, and true exactly when interpolation is
enabled, a next delta is loaded, and the goal speed is below the render rate. -/
theorem C4_interpolation_gating (interpEnabled : Bool) (goalUPS renderRate : ℚ)
    (currentTurn maxLoadedTurn : ℤ) :
    (maxLoadedTurn ≤ currentTurn + 1 →
      shouldInterpolate interpEnabled goalUPS currentTurn maxLoadedTurn renderRate = false) ∧
    (renderRate ≤ goalUPS →
      shouldInterpolate interpEnabled goalUPS currentTurn maxLoadedTurn renderRate = false) ∧
    (shouldInterpolate interpEnabled goalUPS currentTurn maxLoadedTurn renderRate = true ↔
      interpEnabled = true ∧ currentTurn + 1 < maxLoadedTurn ∧ goalUPS < renderRate) := by
  refine ⟨fun h => ?_, fun h => ?_, ?_⟩
  · simp [shouldInterpolate, not_lt.mpr h]
  · simp [shouldInterpolate, not_lt.mpr h]
  · simp [shouldInterpolate, and_assoc]

/-- Witness for C4: the gate is false at the last loaded turn even with
interpolation enabled and a slow goal speed. -/
theorem C4_witness :
    shouldInterpolate true 10 5 6 100 = false :=
  (C4_interpolation_gating true 10 100 5 6).1 (by norm_num)

/-- Claim C5 counterexample: an interpolated frame is rendered with lerp
fraction -5 (engine at turn 5, `interpGameTime` 0), which is not the clamp of
the difference into the unit interval and is negative: the code takes
`Math.min` with 1 but never clamps below at 0. -/
theorem C5_counterexample :
    renderDecision true 10 5 100 60 0 = FrameRequest.interpFrame (-5) ∧
    (-5 : ℚ) ≠ max 0 (min ((0 : ℚ) - ((5 : ℤ) : ℚ)) 1) ∧
    ¬(0 ≤ (-5 : ℚ)) := by
  refine ⟨?_, by norm_num, by norm_num⟩
  norm_num [renderDecision, shouldInterpolate]

/-- Claim C5 (amended): on every tick that renders an interpolated frame, the
fraction passed to the renderer is `min (interpGameTime - currentTurn) 1`; it
is at most 1, and it agrees with `clamp (interpGameTime - currentTurn) 0 1`
whenever `interpGameTime` is at least `currentTurn`, but it can be negative. -/
theorem C5_lerp_fraction (interpEnabled : Bool) (goalUPS renderRate interpGameTime : ℚ)
    (currentTurn maxLoadedTurn : ℤ) (l : ℚ)
    (h : renderDecision interpEnabled goalUPS currentTurn maxLoadedTurn renderRate
          interpGameTime = FrameRequest.interpFrame l) :
    l = min (interpGameTime - (currentTurn : ℚ)) 1 ∧ l ≤ 1 ∧
    (0 ≤ interpGameTime - (currentTurn : ℚ) →
      l = max 0 (min (interpGameTime - (currentTurn : ℚ)) 1)) := by
  rw [renderDecision] at h
  split at h
  · have hl : l = min (interpGameTime - (currentTurn : ℚ)) 1 :=
      (FrameRequest.interpFrame.injEq _ _).mp h.symm
    refine ⟨hl, ?_, fun h0 => ?_⟩
    · rw [hl]; exact min_le_right _ _
    · rw [hl, max_eq_right]
      exact le_min h0 (by norm_num)
  · exact absurd h (by simp)

/-- Witness for C5: a concrete interpolated frame half-way between turns 5
and 6 has fraction one half, which agrees with the clamp. -/
theorem C5_witness :
    (1 / 2 : ℚ) = min ((11 / 2 : ℚ) - ((5 : ℤ) : ℚ)) 1 ∧ (1 / 2 : ℚ) ≤ 1 ∧
    (0 ≤ (11 / 2 : ℚ) - ((5 : ℤ) : ℚ) →
      (1 / 2 : ℚ) = max 0 (min ((11 / 2 : ℚ) - ((5 : ℤ) : ℚ)) 1)) :=
  C5_lerp_fraction true 10 60 (11 / 2) 5 100 (1 / 2)
    (by norm_num [renderDecision, shouldInterpolate])

/-- Claim C6 counterexample: an advancing tick taken while rewinding at engine
turn 11 pushes `interpGameTime` to -7/10 and requests a seek to turn 0 (the
`| 0` conversion truncates toward zero), not to `floor (-7/10) = -1`. -/
theorem C6_counterexample :
    (tick ⟨-100, true, 21 / 2, some 0, false⟩ 11 0 112).1.interpGameTime = -7 / 10 ∧
    (tick ⟨-100, true, 21 / 2, some 0, false⟩ 11 0 112).2 = some 0 ∧
    ⌊(-7 / 10 : ℚ)⌋ = -1 ∧
    (some (0 : ℤ) : Option ℤ) ≠ some (-1) := by
  have hadv := tick_advance_eq ⟨-100, true, 21 / 2, some 0, false⟩ 11 0 0 112
    rfl rfl (by norm_num) (by norm_num [abs_lt])
  have hceil : ⌈(-(7 / 10) : ℚ)⌉ = 0 := by norm_num
  refine ⟨?_, ?_, by norm_num, by simp⟩
  · rw [hadv]; norm_num
  · rw [hadv]
    norm_num [jsToInt32, jsTrunc, hceil]

/-- Claim C6 (amended): on every advancing tick, the requested seek target is
the ECMAScript `| 0` conversion of the new `interpGameTime` (truncation toward
zero with 32-bit wrap), which equals `floor interpGameTime` whenever the new
value is nonnegative and below 2 to the 31st power, but differs from the floor
on negative non-integral values. -/
theorem C6_seek_target (s : ControllerState) (engineTurn seekTo : ℤ)
    (prev curTime : ℚ) (hprev : s.lastTime = some prev)
    (hseek : s.externalSeek = false)
    (hrew : ¬(s.rewinding = true ∧ engineTurn ≤ 10))
    (hdrift : |s.interpGameTime - (engineTurn : ℚ)| < 10) :
    (tick s engineTurn seekTo curTime).2 =
      some (jsToInt32 (s.interpGameTime + s.goalUPS * (curTime - prev) / 1000)) ∧
    (0 ≤ s.interpGameTime + s.goalUPS * (curTime - prev) / 1000 →
      s.interpGameTime + s.goalUPS * (curTime - prev) / 1000 < 2 ^ 31 →
      jsToInt32 (s.interpGameTime + s.goalUPS * (curTime - prev) / 1000) =
        ⌊s.interpGameTime + s.goalUPS * (curTime - prev) / 1000⌋) := by
  constructor
  · rw [tick_advance_eq s engineTurn seekTo prev curTime hprev hseek hrew hdrift]
  · intro h1 h2
    exact jsToInt32_eq_floor _ h1 h2

/-- Witness for C6: from the default state at speed 10 after one second the
requested seek target is the conversion of 10, which is the floor of 10. -/
theorem C6_witness :
    (tick ⟨10, false, 0, some 0, false⟩ 0 0 1000).2 =
      some (jsToInt32 (0 + 10 * (1000 - 0) / 1000)) ∧
    (0 ≤ (0 : ℚ) + 10 * (1000 - 0) / 1000 →
      (0 : ℚ) + 10 * (1000 - 0) / 1000 < 2 ^ 31 →
      jsToInt32 ((0 : ℚ) + 10 * (1000 - 0) / 1000) =
        ⌊(0 : ℚ) + 10 * (1000 - 0) / 1000⌋) :=
  C6_seek_target ⟨10, false, 0, some 0, false⟩ 0 0 0 1000 rfl rfl
    (by norm_num) (by norm_num)

/-- Claim C7 counterexample: the seek intent with target -5 (outside the range
0 to 100) passes -5 to the engine unchanged; the controller performs no
clamping before requesting the engine seek. -/
theorem C7_counterexample :
    (onSeek ⟨10, false, 0, some 0, false⟩ (-5)).2 = -5 ∧
    ¬(0 ≤ (onSeek ⟨10, false, 0, some 0, false⟩ (-5)).2) ∧
    (onSeek ⟨10, false, 0, some 0, false⟩ (-5)).2 ≠ max 0 (min (-5) 100) := by
  refine ⟨rfl, by norm_num [onSeek], by norm_num [onSeek]⟩

/-- Claim C7 (amended): the controller does not clamp a seek target: the seek
intent forwards the raw target to the engine, marks the seek in flight, and
sets `interpGameTime` to the raw target; out-of-range handling is left to the
engine (whose seek no-ops outside the loaded range per its contract), and
the per-tick loop is a total function, so it cannot crash. -/
theorem C7_seek_unclamped (s : ControllerState) (turn : ℤ) :
    (onSeek s turn).2 = turn ∧
    (onSeek s turn).1.externalSeek = true ∧
    (onSeek s turn).1.interpGameTime = (turn : ℚ) :=
  ⟨rfl, rfl, rfl⟩

/-- Claim C8 counterexample: from `goalUPS = 300`, toggling pause twice gives
10, not 300; from `goalUPS = 0`, toggling fast-forward twice gives 10, not 0. -/
theorem C8_counterexample :
    (onTogglePause (onTogglePause ⟨300, false, 0, none, false⟩)).goalUPS ≠
      (⟨300, false, 0, none, false⟩ : ControllerState).goalUPS ∧
    (onToggleForward (onToggleForward ⟨0, false, 0, none, false⟩)).goalUPS ≠
      (⟨0, false, 0, none, false⟩ : ControllerState).goalUPS := by
  constructor <;> norm_num [onTogglePause, onToggleForward]

/-- Claim C8 (amended): toggling pause twice returns `goalUPS` to its
pre-toggle value exactly when that value is 0 or 10, and toggling fast-forward
twice returns it exactly when that value is 300 or 10; from any other speed
the double toggle lands on the default rate 10. -/
theorem C8_double_toggle (s : ControllerState) :
    ((onTogglePause (onTogglePause s)).goalUPS = s.goalUPS ↔
      s.goalUPS = 0 ∨ s.goalUPS = 10) ∧
    ((onToggleForward (onToggleForward s)).goalUPS = s.goalUPS ↔
      s.goalUPS = 300 ∨ s.goalUPS = 10) ∧
    (¬(s.goalUPS = 0 ∨ s.goalUPS = 10) →
      (onTogglePause (onTogglePause s)).goalUPS = 10) ∧
    (¬(s.goalUPS = 300 ∨ s.goalUPS = 10) →
      (onToggleForward (onToggleForward s)).goalUPS = 10) := by
  refine ⟨?_, ?_, ?_, ?_⟩
  · by_cases h : s.goalUPS = 0
    · simp [onTogglePause, h]
    · simp [onTogglePause, h, eq_comm]
  · by_cases h : s.goalUPS = 300
    · simp [onToggleForward, h]
    · simp [onToggleForward, h, eq_comm]
  · intro h
    have h0 : s.goalUPS ≠ 0 := fun hv => h (Or.inl hv)
    simp [onTogglePause, h0]
  · intro h
    have h300 : s.goalUPS ≠ 300 := fun hv => h (Or.inl hv)
    simp [onToggleForward, h300]

/-- Witness for C8: from speed 300 the double pause toggle lands on the
default rate 10, and from speed 0 the double fast-forward toggle lands on 10. -/
theorem C8_witness :
    (onTogglePause (onTogglePause ⟨300, false, 0, none, false⟩)).goalUPS = 10 ∧
    (onToggleForward (onToggleForward ⟨0, false, 0, none, false⟩)).goalUPS = 10 :=
  ⟨(C8_double_toggle ⟨300, false, 0, none, false⟩).2.2.1
      (by rintro (h | h) <;> norm_num at h),
   (C8_double_toggle ⟨0, false, 0, none, false⟩).2.2.2
      (by rintro (h | h) <;> norm_num at h)⟩

/-- Claim C9: in every controller state reachable from the initial state via
the four intents and loop ticks, the rewinding flag is true exactly when
`goalUPS` is the rewind rate -100. -/
theorem C9_rewind_flag_invariant (s : ControllerState) (h : Reachable s) :
    s.rewinding = true ↔ s.goalUPS = -100 := by
  induction h with
  | init => norm_num [initState]
  | @pause s h ih =>
      simp only [onTogglePause]
      constructor
      · intro hv; exact absurd hv (by simp)
      · intro hv; exact absurd hv (by split_ifs <;> norm_num)
  | @forward s h ih =>
      simp only [onToggleForward]
      constructor
      · intro hv; exact absurd hv (by simp)
      · intro hv; exact absurd hv (by split_ifs <;> norm_num)
  | @rewind s h ih =>
      by_cases hg : s.goalUPS = -100
      · have hr : s.rewinding = true := ih.mpr hg
        norm_num [onToggleRewind, hg, hr]
      · have hr : s.rewinding = false :=
          Bool.eq_false_iff.mpr (fun hb => hg (ih.mp hb))
        simp [onToggleRewind, hg, hr]
  | @seek s turn h ih =>
      simpa [onSeek] using ih
  | @step s engineTurn seekTo curTime h ih =>
      rcases hl : s.lastTime with _ | prev
      · rw [tick_first s engineTurn seekTo curTime hl]
        simpa using ih
      · by_cases hes : s.externalSeek = true
        · by_cases heq : engineTurn = seekTo
          · rw [tick_seek_clear s engineTurn seekTo prev curTime hl hes heq]
            simpa using ih
          · rw [tick_seek_wait s engineTurn seekTo prev curTime hl hes heq]
            simpa using ih
        · have hes2 : s.externalSeek = false := Bool.eq_false_iff.mpr hes
          by_cases hrw : s.rewinding = true ∧ engineTurn ≤ 10
          · rw [tick_rewind_stop s engineTurn seekTo prev curTime hl hes2 hrw.1 hrw.2]
            simp only [onTogglePause, onToggleRewind]
            constructor
            · intro hv; exact absurd hv (by simp)
            · intro hv; exact absurd hv (by split_ifs <;> norm_num)
          · by_cases hd : |s.interpGameTime - (engineTurn : ℚ)| < 10
            · rw [tick_advance_eq s engineTurn seekTo prev curTime hl hes2 hrw hd]
              simpa using ih
            · rcases s with ⟨g, rwd, it, lt, es⟩
              dsimp only at hl hes2 hrw hd ih ⊢
              subst hl; subst hes2
              simpa [tick, hrw, hd] using ih

/-- Witness for C9: the initial state is reachable and satisfies the
invariant. -/
theorem C9_witness :
    Reachable initState ∧ (initState.rewinding = true ↔ initState.goalUPS = -100) :=
  ⟨Reachable.init, C9_rewind_flag_invariant initState Reachable.init⟩

/-- Claim C10: `config.defaults` replaces every falsy supplied field (missing,
0, false, or the empty string) with its built-in default, in both variants,
and the full variant returns `interpolate = true` regardless of the supplied
value, including an explicitly supplied false. -/
theorem C10_config_defaults (supplied : SuppliedConfig) :
    ((supplied.width = none ∨ supplied.width = some 0) →
      (defaults supplied).width = 600) ∧
    ((supplied.height = none ∨ supplied.height = some 0) →
      (defaults supplied).height = 600) ∧
    ((supplied.defaultTPS = none ∨ supplied.defaultTPS = some 0) →
      (defaults supplied).defaultTPS = 20) ∧
    ((supplied.pollEvery = none ∨ supplied.pollEvery = some 0) →
      (defaults supplied).pollEvery = 500) ∧
    ((supplied.gameVersion = none ∨ supplied.gameVersion = some "") →
      (defaults supplied).gameVersion = "ANY") ∧
    ((supplied.fullscreen = none ∨ supplied.fullscreen = some false) →
      (defaults supplied).fullscreen = false) ∧
    ((supplied.websocketURL = none ∨ supplied.websocketURL = some "") →
      (defaults supplied).websocketURL = none) ∧
    (defaults supplied).interpolate = true ∧
    ((supplied.width = none ∨ supplied.width = some 0) →
      (defaultsBase supplied).width = 600) ∧
    ((supplied.defaultTPS = none ∨ supplied.defaultTPS = some 0) →
      (defaultsBase supplied).defaultTPS = 20) := by
  refine ⟨?_, ?_, ?_, ?_, ?_, ?_, ?_, rfl, ?_, ?_⟩ <;>
    rintro (h | h) <;>
    simp [defaults, defaultsBase, jsOrNum, jsOrStr, jsOrBool, jsOrNull, h]

/-- Witness for C10: a supplied object with `width = 0`, `defaultTPS = 0` and
`interpolate = false` still yields width 600, TPS 20 and interpolation on. -/
theorem C10_witness :
    (defaults { width := some 0, defaultTPS := some 0,
                interpolate := some false }).width = 600 ∧
    (defaults { width := some 0, defaultTPS := some 0,
                interpolate := some false }).defaultTPS = 20 ∧
    (defaults { width := some 0, defaultTPS := some 0,
                interpolate := some false }).interpolate = true :=
  ⟨(C10_config_defaults _).1 (Or.inr rfl),
   (C10_config_defaults _).2.2.1 (Or.inr rfl),
   (C10_config_defaults _).2.2.2.2.2.2.2.1⟩
